import Mathlib

/-!
Verification of the yoga-fitness event-booking core.

The booking workflow lives in `src/src/components/BookingForm.tsx`; the
record store (`@/lib/database`), the entity types (`@/types`), the payment
gateway and the email service are imported there but their sources are not
in the repository snapshot, so they are modelled from the specification
(spec §3, §4.1, §4.4, §4.5).  All machine numbers involved (prices,
participant counts) are non-negative integers, modelled as `Nat`.
-/

namespace YogaBooking

/-- Modelled from the spec: the `User` entity of `@/types` (module absent
from the snapshot), fields per spec §3 and their use in `BookingForm.tsx`. -/
structure User where
  id : String
  name : String
  email : String
  phone : String
  studentId : String
  registrationDate : String
deriving Repr, DecidableEq

/-- Payment status of a booking: the source only ever writes the literals
`'pending'` and `'completed'`. -/
inductive PaymentStatus where
  | pending
  | completed
deriving Repr, DecidableEq

/-- Modelled from the spec: the `Event` entity of `@/types`, fields per
spec §3 and their use in `BookingForm.tsx`. -/
structure Event where
  id : String
  title : String
  date : String
  time : String
  price : Nat
  maxParticipants : Nat
  currentParticipants : Nat
deriving Repr, DecidableEq

/-- Modelled from the spec: the `Booking` entity of `@/types`, fields per
spec §3 and their use in `BookingForm.tsx`; `paymentId` is optional and
only written by the payment-success handler. -/
structure Booking where
  id : String
  userId : String
  eventId : String
  bookingDate : String
  paymentStatus : PaymentStatus
  amount : Nat
  paymentId : Option String := none
deriving Repr, DecidableEq

/-- Modelled from the spec: the Record Store (`@/lib/database`, absent from
the snapshot): three independent keyed collections (spec §4.1, §6). -/
structure DB where
  users : List User
  events : List Event
  bookings : List Booking
deriving Repr, DecidableEq

/-- Modelled from the spec: `findUserByEmail` — exact-match lookup on the
email field (spec §4.1). -/
def getUserByEmail (db : DB) (email : String) : Option User :=
  db.users.find? (fun u => u.email == email)

/-- Modelled from the spec: `createUser` — appends the record; never fails
for well-formed input (spec §4.1). -/
def addUser (db : DB) (u : User) : DB :=
  { db with users := db.users ++ [u] }

/-- Modelled from the spec: `createBooking` — appends the record
(spec §4.1). -/
def addBooking (db : DB) (b : Booking) : DB :=
  { db with bookings := db.bookings ++ [b] }

/-- Modelled from the spec: `updateBooking(id, partial)` — partial update
merging only supplied fields onto the record with the matching id
(spec §4.1).  The supplied fields are represented by the merge function
`f`; an unknown id leaves the store unchanged (the spec's `NotFound`
branch, which no call site of the embedded workflow reaches). -/
def updateBooking (db : DB) (id : String) (f : Booking → Booking) : DB :=
  { db with bookings := db.bookings.map (fun b => if b.id == id then f b else b) }

/-- Modelled from the spec: `updateEvent(id, partial)` — same partial-merge
semantics as `updateBooking` (spec §4.1). -/
def updateEvent (db : DB) (id : String) (f : Event → Event) : DB :=
  { db with events := db.events.map (fun e => if e.id == id then f e else e) }

/-- Modelled from the spec: `getEvent` — point lookup by id (spec §4.1). -/
def getEvent (db : DB) (id : String) : Option Event :=
  db.events.find? (fun e => e.id == id)

/-- Point lookup of a booking by id (spec §4.1 point/field lookups). -/
def getBooking (db : DB) (id : String) : Option Booking :=
  db.bookings.find? (fun b => b.id == id)

/-- The raw text fields of the booking form (`BookingFormData` in
`BookingForm.tsx`). -/
structure FormInput where
  name : String
  email : String
  phone : String
  studentId : String
deriving Repr, DecidableEq

/-- The four form fields, used to name the offending field of a
validation error. -/
inductive Field where
  | name
  | email
  | phone
  | studentId
deriving Repr, DecidableEq

/-- A validation error names the offending field and carries the message
attached to the failed check in `bookingSchema`. -/
structure ValidationError where
  field : Field
  message : String
deriving Repr, DecidableEq

/-- Modelled from the spec: "syntactically valid email" (spec §4.3) — the
source delegates to the external zod library's `z.string().email()`, whose
code is not in the snapshot.  Modelled as: exactly one `@`, a non-empty
local part, and a domain that contains a dot and neither starts nor ends
with one. -/
def emailValid (s : String) : Bool :=
  match s.toList.splitOn '@' with
  | [lp, dp] =>
      !lp.isEmpty && !dp.isEmpty && dp.contains '.'
        && dp.head? != some '.' && dp.getLast? != some '.'
  | _ => false

/-- The `bookingSchema` checks of `BookingForm.tsx` (lines 16-21): name at
least 2 characters, valid email, phone at least 10 characters, non-empty
studentId; each failed check carries the schema's message and names its
field.  Checks are tried in schema order and the first failure is
reported. -/
def validate (i : FormInput) : Except ValidationError Unit :=
  if i.name.length < 2 then
    .error ⟨.name, "Name must be at least 2 characters"⟩
  else if !emailValid i.email then
    .error ⟨.email, "Invalid email address"⟩
  else if i.phone.length < 10 then
    .error ⟨.phone, "Phone number must be at least 10 digits"⟩
  else if i.studentId.length < 1 then
    .error ⟨.studentId, "Student ID is required"⟩
  else
    .ok ()

/-- Which individual schema check fails on a given input. -/
def fieldInvalid (i : FormInput) : Field → Bool
  | .name => i.name.length < 2
  | .email => !emailValid i.email
  | .phone => i.phone.length < 10
  | .studentId => i.studentId.length < 1

/-- The component state of `BookingForm` (its `useState` hooks plus the
`event` prop, which is the snapshot of the event captured when the form
was created). -/
structure FormState where
  event : Event
  isSubmitting : Bool := false
  showPayment : Bool := false
  bookingData : Option (User × Booking) := none
  success : Bool := false
deriving Repr, DecidableEq

/-- The `User` object built at the top of `onSubmit` (lines 48-56):
`id` is `Date.now().toString()` and `registrationDate` is
`new Date().toISOString()`, both supplied here as explicit inputs. -/
def mkUser (uid : String) (data : FormInput) (regDate : String) : User :=
  { id := uid, name := data.name, email := data.email, phone := data.phone
  , studentId := data.studentId, registrationDate := regDate }

/-- The `Booking` object built in `onSubmit` (lines 59-66): its `userId`
is the freshly built user's id, `paymentStatus` is `pending` iff the
event's price is positive, and `amount` is the event's price.  The id and
the booking date are the source's `Date.now().toString()` and
`new Date().toISOString()`, supplied as explicit inputs. -/
def mkBooking (bid : String) (userId : String) (ev : Event) (bkDate : String) : Booking :=
  { id := bid, userId := userId, eventId := ev.id, bookingDate := bkDate
  , paymentStatus := if ev.price > 0 then .pending else .completed
  , amount := ev.price }

/-- `completeBooking` (lines 91-104): writes the snapshot's participant
count plus one into the stored event via `updateEvent`, then invokes the
Notification Boundary (external, no store effect, spec §4.5) and sets the
success flag. -/
def completeBooking (db : DB) (s : FormState) : DB × FormState :=
  let db1 := updateEvent db s.event.id
    (fun e => { e with currentParticipants := s.event.currentParticipants + 1 })
  (db1, { s with success := true })

/-- `onSubmit` (lines 44-89): builds the candidate user and the booking
(the booking's `userId` is the candidate's fresh id), skips `addUser` when
a user with the same email already exists, appends the booking, records
`bookingData`, then either shows the payment step (paid event) or
completes the booking immediately (free event).  The transient
`isSubmitting` flag is set and reset within the call and ends `false`. -/
def onSubmit (db : DB) (s : FormState) (data : FormInput)
    (uid bid regDate bkDate : String) : DB × FormState :=
  let user := mkUser uid data regDate
  let booking := mkBooking bid user.id s.event bkDate
  let db1 := match getUserByEmail db data.email with
    | some _ => db
    | none => addUser db user
  let db2 := addBooking db1 booking
  let s1 := { s with bookingData := some (user, booking) }
  if s.event.price > 0 then
    (db2, { s1 with showPayment := true })
  else
    completeBooking db2 s1

/-- `handlePaymentSuccess` (lines 106-117): when booking data is present,
merges `paymentStatus = completed` and the supplied `paymentId` onto the
stored booking, then runs `completeBooking`; the payment-confirmation
email is external (spec §4.5).  With no booking data it does nothing. -/
def handlePaymentSuccess (db : DB) (s : FormState) (pid : String) : DB × FormState :=
  match s.bookingData with
  | none => (db, s)
  | some (_, booking) =>
      let db1 := updateBooking db booking.id
        (fun b => { b with paymentStatus := .completed, paymentId := some pid })
      completeBooking db1 s

/-- The `onCancel` callback passed to the payment gateway (line 139):
only hides the payment step; the store is untouched. -/
def onCancel (db : DB) (s : FormState) : DB × FormState :=
  (db, { s with showPayment := false })

/-- `handleSubmit(onSubmit)` as wired in the form: the zod resolver runs
the schema first and `onSubmit` only runs on validated data; a failed
validation leaves the store and component state untouched and surfaces
the field error. -/
def submitForm (db : DB) (s : FormState) (input : FormInput)
    (uid bid regDate bkDate : String) : DB × FormState × Option ValidationError :=
  match validate input with
  | .error e => (db, s, some e)
  | .ok _ =>
      let (db1, s1) := onSubmit db s input uid bid regDate bkDate
      (db1, s1, none)

/-! Test fixtures: the concrete event, store and inputs of the spec §8
scenario (event `e1`, price 500, capacity 2, one current participant;
Ann Lee's form input). -/

/-- The spec §8 scenario event. -/
def evE1 : Event :=
  { id := "e1", title := "Yoga", date := "2025-01-01", time := "10:00"
  , price := 500, maxParticipants := 2, currentParticipants := 1 }

/-- A store holding only the scenario event. -/
def dbInit : DB := { users := [], events := [evE1], bookings := [] }

/-- A fresh booking form over the scenario event. -/
def formS0 : FormState := { event := evE1 }

/-- The spec §8 scenario form input. -/
def annInput : FormInput :=
  { name := "Ann Lee", email := "a@x.com", phone := "1234567890", studentId := "S1" }

/-- A second, distinct submission carrying the same email address. -/
def annInput2 : FormInput :=
  { name := "Ann B Lee", email := "a@x.com", phone := "1234567899", studentId := "S2" }

/-- The spec §8 scenario run: Ann's submission against the scenario
store, with fresh ids "1001". -/
def annSubmit : DB × FormState := onSubmit dbInit formS0 annInput "1001" "1001" "r1" "b1"

/-- The scenario run continued: payment confirmation `pay_123`. -/
def annConfirm1 : DB × FormState := handlePaymentSuccess annSubmit.1 annSubmit.2 "pay_123"

/-- The scenario run continued: a second, repeated confirmation `pay_456`
against the already-completed booking. -/
def annConfirm2 : DB × FormState := handlePaymentSuccess annConfirm1.1 annConfirm1.2 "pay_456"

/-! Helper lemmas about the store operations. -/

theorem find?_map_cond {α : Type} (l : List α) (p : α → Bool) (g : α → α)
    (hg : ∀ x, p (g x) = p x) :
    (l.map (fun x => if p x then g x else x)).find? p = (l.find? p).map g := by
  induction l with
  | nil => rfl
  | cons a t ih =>
      by_cases h : p a = true
      · rw [List.map_cons, if_pos h, List.find?_cons_of_pos _ ((hg a).trans h),
          List.find?_cons_of_pos _ h, Option.map_some']
      · rw [List.map_cons, if_neg h, List.find?_cons_of_neg _ h,
          List.find?_cons_of_neg _ h, ih]

theorem getEvent_updateEvent_self (db : DB) (id : String) (f : Event → Event)
    (hf : ∀ e, (f e).id = e.id) :
    getEvent (updateEvent db id f) id = (getEvent db id).map f := by
  unfold getEvent updateEvent
  exact find?_map_cond db.events (fun e => e.id == id) f (fun e => by simp [hf])

theorem getBooking_updateBooking_self (db : DB) (id : String) (f : Booking → Booking)
    (hf : ∀ b, (f b).id = b.id) :
    getBooking (updateBooking db id f) id = (getBooking db id).map f := by
  unfold getBooking updateBooking
  exact find?_map_cond db.bookings (fun b => b.id == id) f (fun b => by simp [hf])

theorem onSubmit_bookings (db : DB) (s : FormState) (data : FormInput)
    (uid bid regDate bkDate : String) :
    (onSubmit db s data uid bid regDate bkDate).1.bookings
      = db.bookings ++ [mkBooking bid uid s.event bkDate] := by
  unfold onSubmit completeBooking addBooking addUser updateEvent
  cases getUserByEmail db data.email <;> by_cases h : s.event.price > 0 <;>
    simp [h, mkUser]

theorem onSubmit_events_paid (db : DB) (s : FormState) (data : FormInput)
    (uid bid regDate bkDate : String) (hpaid : s.event.price > 0) :
    (onSubmit db s data uid bid regDate bkDate).1.events = db.events := by
  unfold onSubmit addBooking addUser
  cases getUserByEmail db data.email <;> simp [hpaid]

theorem onSubmit_snd_paid (db : DB) (s : FormState) (data : FormInput)
    (uid bid regDate bkDate : String) (hpaid : s.event.price > 0) :
    (onSubmit db s data uid bid regDate bkDate).2
      = { s with
            bookingData := some (mkUser uid data regDate, mkBooking bid uid s.event bkDate)
          , showPayment := true } := by
  unfold onSubmit addBooking addUser
  cases getUserByEmail db data.email <;> simp [hpaid, mkUser]

theorem getBooking_updateEvent (db : DB) (id id2 : String) (f : Event → Event) :
    getBooking (updateEvent db id f) id2 = getBooking db id2 := rfl

theorem getEvent_updateBooking (db : DB) (id id2 : String) (f : Booking → Booking) :
    getEvent (updateBooking db id f) id2 = getEvent db id2 := rfl

theorem getBooking_append_fresh (db : DB) (b : Booking)
    (hfresh : ∀ x ∈ db.bookings, x.id ≠ b.id) :
    (db.bookings ++ [b]).find? (fun x => x.id == b.id) = some b := by
  rw [List.find?_append, List.find?_eq_none.mpr (fun x hx => by simp [hfresh x hx])]
  simp [List.find?]

theorem map_overwrite_idem (l : List Event) (id : String) (n : Nat) :
    ((l.map (fun e => if e.id == id then { e with currentParticipants := n } else e)).map
        (fun e => if e.id == id then { e with currentParticipants := n } else e))
      = l.map (fun e => if e.id == id then { e with currentParticipants := n } else e) := by
  simp only [List.map_map]
  congr 1
  funext e
  by_cases h : e.id = id <;> simp [h]

/-! Claim theorems. -/

/-- Claim C6: for every submission, the created Booking has paymentStatus
`pending` exactly when the event's price is positive and `completed`
exactly when the price is zero, and its amount equals the event's price:
`onSubmit` always appends exactly one booking, built by `mkBooking`, with
these properties. -/
theorem c6_booking_creation (db : DB) (s : FormState) (data : FormInput)
    (uid bid regDate bkDate : String) :
    ∃ b : Booking,
      (onSubmit db s data uid bid regDate bkDate).1.bookings = db.bookings ++ [b]
        ∧ (b.paymentStatus = .pending ↔ s.event.price > 0)
        ∧ (b.paymentStatus = .completed ↔ s.event.price = 0)
        ∧ b.amount = s.event.price := by
  refine ⟨mkBooking bid uid s.event bkDate,
    onSubmit_bookings db s data uid bid regDate bkDate, ?_, ?_, rfl⟩
  · unfold mkBooking
    by_cases h : s.event.price > 0 <;> simp [h]
  · unfold mkBooking
    by_cases h : s.event.price > 0 <;> simp [h] <;> omega

/-- Claim C4: finalize is idempotent with respect to capacity — running
`completeBooking` a second time from the state produced by the first run
leaves the store's events (in particular every `currentParticipants`
counter) exactly as after the first run, because the source writes the
absolute value `snapshot.currentParticipants + 1` rather than performing
an increment. -/
theorem c4_finalize_idempotent (db : DB) (s : FormState) :
    (completeBooking (completeBooking db s).1 (completeBooking db s).2).1.events
      = (completeBooking db s).1.events := by
  unfold completeBooking updateEvent
  simp only [List.map_map]
  congr 1
  funext e
  by_cases h : e.id = s.event.id <;> simp [h]

/-- Claim C7: finalize enforces no capacity ceiling — even when the
snapshot event is full (`currentParticipants ≥ maxParticipants`),
`completeBooking` still overwrites the stored count with the snapshot
count plus 1; being a total function into `DB × FormState` it signals no
`CapacityExceeded` (no such error exists anywhere in the workflow). -/
theorem c7_no_capacity_ceiling (db : DB) (s : FormState) (e0 : Event)
    (_hfull : s.event.currentParticipants ≥ s.event.maxParticipants)
    (hfind : getEvent db s.event.id = some e0) :
    getEvent (completeBooking db s).1 s.event.id
      = some { e0 with currentParticipants := s.event.currentParticipants + 1 } := by
  show getEvent (updateEvent db s.event.id _) s.event.id = _
  rw [getEvent_updateEvent_self db s.event.id
        (fun e => { e with currentParticipants := s.event.currentParticipants + 1 })
        (fun e => rfl),
    hfind, Option.map_some']

/-- Witness for C7 at the spec §8 scenario event taken at
`currentParticipants = 2 = maxParticipants` (full): finalize still writes
3. -/
theorem c7_no_capacity_ceiling_witness :
    getEvent (completeBooking
        { users := [], events := [{ evE1 with currentParticipants := 2 }], bookings := [] }
        { event := { evE1 with currentParticipants := 2 } }).1 "e1"
      = some { evE1 with currentParticipants := 3 } :=
  c7_no_capacity_ceiling
    { users := [], events := [{ evE1 with currentParticipants := 2 }], bookings := [] }
    { event := { evE1 with currentParticipants := 2 } }
    { evE1 with currentParticipants := 2 } (by decide) (by decide)

/-- Claim C10 (implicit): the value finalize writes is computed solely
from the snapshot captured at form creation — for every store whose
current count for the event differs from the snapshot's,
`completeBooking` overwrites it with `snapshot.currentParticipants + 1`,
discarding the store's value. -/
theorem c10_snapshot_overwrite (db : DB) (s : FormState) (e0 : Event)
    (hfind : getEvent db s.event.id = some e0)
    (_hdiff : e0.currentParticipants ≠ s.event.currentParticipants) :
    getEvent (completeBooking db s).1 s.event.id
      = some { e0 with currentParticipants := s.event.currentParticipants + 1 } := by
  show getEvent (updateEvent db s.event.id _) s.event.id = _
  rw [getEvent_updateEvent_self db s.event.id
        (fun e => { e with currentParticipants := s.event.currentParticipants + 1 })
        (fun e => rfl),
    hfind, Option.map_some']

/-- Witness for C10: a store holding the scenario event at count 5 while
the form's snapshot has count 1; finalize writes 2, discarding the 5. -/
theorem c10_snapshot_overwrite_witness :
    getEvent (completeBooking
        { users := [], events := [{ evE1 with currentParticipants := 5 }], bookings := [] }
        formS0).1 "e1"
      = some { evE1 with currentParticipants := 2 } :=
  c10_snapshot_overwrite
    { users := [], events := [{ evE1 with currentParticipants := 5 }], bookings := [] }
    formS0 { evE1 with currentParticipants := 5 } (by decide) (by decide)

/-- Claim C8: the form rejects input whose name is shorter than 2
characters, whose email is not syntactically valid, whose phone is shorter
than 10 characters, or whose studentId is empty, with a validation error
naming an offending field, and in that case the store (and the component
state) are left untouched — no User and no Booking is created. -/
theorem c8_validation_rejects (db : DB) (s : FormState) (input : FormInput)
    (uid bid regDate bkDate : String)
    (hbad : input.name.length < 2 ∨ emailValid input.email = false
      ∨ input.phone.length < 10 ∨ input.studentId.length < 1) :
    ∃ e : ValidationError,
      submitForm db s input uid bid regDate bkDate = (db, s, some e)
        ∧ fieldInvalid input e.field = true := by
  unfold submitForm validate
  by_cases h1 : input.name.length < 2
  · exact ⟨⟨.name, "Name must be at least 2 characters"⟩,
      by simp [h1], by simp [fieldInvalid, h1]⟩
  · by_cases h2 : emailValid input.email = false
    · refine ⟨⟨.email, "Invalid email address"⟩, by simp [h1, h2], ?_⟩
      simp [fieldInvalid, h2]
    · by_cases h3 : input.phone.length < 10
      · refine ⟨⟨.phone, "Phone number must be at least 10 digits"⟩, ?_, ?_⟩
        · simp [h1, h3, Bool.not_eq_true _ ▸ h2]
          simp at h2
          simp [h2]
        · simp [fieldInvalid, h3]
      · by_cases h4 : input.studentId.length < 1
        · refine ⟨⟨.studentId, "Student ID is required"⟩, ?_, ?_⟩
          · simp at h2
            simp [h1, h2, h3, h4]
          · simp [fieldInvalid, h4]
        · exact absurd hbad (by simp [h1, h2, h3, h4])

/-- Witness for C8 at the spec §8 scenario: the email
`"not-an-email"` is rejected with a validation error whose field indeed
fails its check (the email field), and the store is untouched. -/
theorem c8_validation_rejects_witness :
    ∃ e : ValidationError,
      submitForm dbInit formS0
          { name := "Ann Lee", email := "not-an-email"
          , phone := "1234567890", studentId := "S1" }
          "1001" "1001" "r1" "b1"
        = (dbInit, formS0, some e)
        ∧ fieldInvalid
            { name := "Ann Lee", email := "not-an-email"
            , phone := "1234567890", studentId := "S1" } e.field = true :=
  c8_validation_rejects dbInit formS0 _ "1001" "1001" "r1" "b1"
    (Or.inr (Or.inl (by decide)))

/-- Claim C9: submission is atomic up to Booking creation — whenever
`submitForm` surfaces an error, the store is returned exactly as it was:
no partial records (in particular no User without its Booking) remain.
The Record Store operations themselves are total per spec §4.1, so the
only errors possible before the Booking write are validation errors. -/
theorem c9_atomic_submit (db : DB) (s : FormState) (input : FormInput)
    (uid bid regDate bkDate : String) (e : ValidationError)
    (herr : (submitForm db s input uid bid regDate bkDate).2.2 = some e) :
    (submitForm db s input uid bid regDate bkDate).1 = db := by
  unfold submitForm at herr ⊢
  cases hv : validate input with
  | error e0 => simp [hv]
  | ok u => simp [hv] at herr

/-- Witness for C9: a one-letter name is rejected and the scenario store
comes back unchanged. -/
theorem c9_atomic_submit_witness :
    (submitForm dbInit formS0
        { name := "A", email := "a@x.com", phone := "1234567890", studentId := "S1" }
        "1001" "1001" "r1" "b1").1 = dbInit :=
  c9_atomic_submit dbInit formS0 _ "1001" "1001" "r1" "b1"
    ⟨.name, "Name must be at least 2 characters"⟩ (by decide)

/-- Claim C1 (code bug): two booking submissions with the same email
address "a@x.com" (fresh ids "1001" then "2002").  Deduplication of the
User store works — exactly one User record ("1001") exists afterwards —
but the second Booking references `userId = "2002"`, the freshly built
candidate's id, which matches no stored User: `onSubmit` builds the
Booking from the candidate before the dedup lookup and never rewires it
to the existing User's id, so the claim's "both Bookings reference that
one User record" fails on the code. -/
theorem c1_dedup_dangling_user_reference :
    (((onSubmit (onSubmit dbInit formS0 annInput "1001" "1001" "r1" "b1").1
        formS0 annInput2 "2002" "2002" "r2" "b2").1.users.map (fun u => u.id))
      = ["1001"])
    ∧ (((onSubmit (onSubmit dbInit formS0 annInput "1001" "1001" "r1" "b1").1
        formS0 annInput2 "2002" "2002" "r2" "b2").1.bookings.map (fun b => b.userId))
      = ["1001", "2002"])
    ∧ (∀ u ∈ (onSubmit (onSubmit dbInit formS0 annInput "1001" "1001" "r1" "b1").1
        formS0 annInput2 "2002" "2002" "r2" "b2").1.users, u.id ≠ "2002") := by
  refine ⟨by decide, by decide, ?_⟩
  decide

/-- Claim C3: for every valid paid-event submission the Booking is created
`pending` with the participant count untouched; after the payment gateway
reports success with `pid`, the booking becomes `completed` with that
`pid` stored and the stored count becomes the snapshot count plus exactly
1; on cancellation the store is completely unchanged, so the pending
Booking persists and the count stays put.  The hypotheses say the event's
price is positive, the form's snapshot agrees with the stored event, and
the generated booking id is fresh. -/
theorem c3_paid_flow (db : DB) (s : FormState) (data : FormInput)
    (uid bid regDate bkDate pid : String)
    (hpaid : s.event.price > 0)
    (hget : getEvent db s.event.id = some s.event)
    (hfresh : ∀ x ∈ db.bookings, x.id ≠ bid) :
    (getBooking (onSubmit db s data uid bid regDate bkDate).1 bid
        = some (mkBooking bid uid s.event bkDate)
      ∧ (mkBooking bid uid s.event bkDate).paymentStatus = .pending
      ∧ getEvent (onSubmit db s data uid bid regDate bkDate).1 s.event.id = some s.event)
    ∧ (getBooking (handlePaymentSuccess (onSubmit db s data uid bid regDate bkDate).1
            (onSubmit db s data uid bid regDate bkDate).2 pid).1 bid
        = some { mkBooking bid uid s.event bkDate with
                   paymentStatus := .completed, paymentId := some pid }
      ∧ getEvent (handlePaymentSuccess (onSubmit db s data uid bid regDate bkDate).1
            (onSubmit db s data uid bid regDate bkDate).2 pid).1 s.event.id
        = some { s.event with currentParticipants := s.event.currentParticipants + 1 })
    ∧ (onCancel (onSubmit db s data uid bid regDate bkDate).1
          (onSubmit db s data uid bid regDate bkDate).2).1
        = (onSubmit db s data uid bid regDate bkDate).1 := by
  have hbk := onSubmit_bookings db s data uid bid regDate bkDate
  have hev := onSubmit_events_paid db s data uid bid regDate bkDate hpaid
  have hsnd := onSubmit_snd_paid db s data uid bid regDate bkDate hpaid
  have hgb1 : getBooking (onSubmit db s data uid bid regDate bkDate).1 bid
      = some (mkBooking bid uid s.event bkDate) := by
    unfold getBooking
    rw [hbk]
    exact getBooking_append_fresh db (mkBooking bid uid s.event bkDate) hfresh
  have hge1 : getEvent (onSubmit db s data uid bid regDate bkDate).1 s.event.id
      = some s.event := by
    unfold getEvent
    rw [hev]
    exact hget
  refine ⟨⟨hgb1, by simp [mkBooking, hpaid], hge1⟩, ⟨?_, ?_⟩, rfl⟩
  · rw [hsnd]
    show getBooking (updateEvent (updateBooking _ _ _) _ _) bid = _
    rw [getBooking_updateEvent,
      show (mkBooking bid uid s.event bkDate).id = bid from rfl,
      getBooking_updateBooking_self _ bid
        (fun b => { b with paymentStatus := .completed, paymentId := some pid })
        (fun b => rfl),
      hgb1, Option.map_some']
  · rw [hsnd]
    show getEvent (updateEvent (updateBooking _ _ _) s.event.id _) s.event.id = _
    rw [getEvent_updateEvent_self _ s.event.id
        (fun e => { e with currentParticipants := s.event.currentParticipants + 1 })
        (fun e => rfl),
      getEvent_updateBooking, hge1, Option.map_some']

/-- Witness for C3: the spec §8 scenario — after Ann's paid submission
and the gateway's `pay_123` confirmation, the stored event `e1` holds 2
participants (snapshot 1 plus exactly 1). -/
theorem c3_paid_flow_witness :
    getEvent (handlePaymentSuccess annSubmit.1 annSubmit.2 "pay_123").1 "e1"
      = some { evE1 with currentParticipants := 2 } :=
  ((c3_paid_flow dbInit formS0 annInput "1001" "1001" "r1" "b1" "pay_123"
      (by decide) (by decide) (fun x hx => absurd hx (by simp [dbInit]))).2.1).2

/-- Claim C5 counterexample: in the spec §8 scenario run, after the
booking is already `completed` (with `pay_123`), a repeated payment
confirmation carrying `pay_456` does not fail with `InvalidState` leaving
the booking untouched — the handler has no error outcome at all and it
mutates the store, overwriting the stored payment identifier with
`pay_456`. -/
theorem c5_already_completed_counterexample :
    ((getBooking annConfirm1.1 "1001").map (fun b => b.paymentStatus)
        = some PaymentStatus.completed)
    ∧ ((getBooking annConfirm2.1 "1001").map (fun b => b.paymentId)
        = some (some "pay_456"))
    ∧ annConfirm2.1 ≠ annConfirm1.1 := by
  exact ⟨by decide, by decide, by decide⟩

/-- Claim C5 as amended: a repeated payment confirmation against an
already-completed booking is not rejected — it overwrites the stored
payment identifier with the newly supplied one and re-runs finalize — but
the event's `currentParticipants` is not double-incremented: the store's
events after the repeat equal the events after the first confirmation
(finalize writes the absolute snapshot value).  A confirmation with no
booking data in hand is a no-op rather than a `NotFound` failure. -/
theorem c5_repeat_confirm (db : DB) (s : FormState) (u : User) (b : Booking)
    (pid1 pid2 : String)
    (hbd : s.bookingData = some (u, b))
    (hget : getBooking db b.id = some b) :
    (getBooking (handlePaymentSuccess (handlePaymentSuccess db s pid1).1
        (handlePaymentSuccess db s pid1).2 pid2).1 b.id
      = some { b with paymentStatus := .completed, paymentId := some pid2 })
    ∧ ((handlePaymentSuccess (handlePaymentSuccess db s pid1).1
          (handlePaymentSuccess db s pid1).2 pid2).1.events
        = (handlePaymentSuccess db s pid1).1.events)
    ∧ (∀ s0 : FormState, s0.bookingData = none →
        (handlePaymentSuccess db s0 pid2).1 = db) := by
  have hsnd1 : (handlePaymentSuccess db s pid1).2 = { s with success := true } := by
    simp only [handlePaymentSuccess, hbd, completeBooking]
  have hfst1 : (handlePaymentSuccess db s pid1).1
      = updateEvent (updateBooking db b.id
          (fun x => { x with paymentStatus := .completed, paymentId := some pid1 }))
          s.event.id
          (fun e => { e with currentParticipants := s.event.currentParticipants + 1 }) := by
    simp only [handlePaymentSuccess, hbd, completeBooking]
  have hbd2 : (handlePaymentSuccess db s pid1).2.bookingData = some (u, b) := by
    rw [hsnd1]
    exact hbd
  have hfst2 : (handlePaymentSuccess (handlePaymentSuccess db s pid1).1
        (handlePaymentSuccess db s pid1).2 pid2).1
      = updateEvent (updateBooking (handlePaymentSuccess db s pid1).1 b.id
          (fun x => { x with paymentStatus := .completed, paymentId := some pid2 }))
          s.event.id
          (fun e => { e with currentParticipants := s.event.currentParticipants + 1 }) := by
    rw [hsnd1]
    simp only [handlePaymentSuccess, hbd, completeBooking]
  have hgb1 : getBooking (handlePaymentSuccess db s pid1).1 b.id
      = some { b with paymentStatus := .completed, paymentId := some pid1 } := by
    rw [hfst1, getBooking_updateEvent,
      getBooking_updateBooking_self _ b.id
        (fun x => { x with paymentStatus := .completed, paymentId := some pid1 })
        (fun x => rfl),
      hget, Option.map_some']
  refine ⟨?_, ?_, ?_⟩
  · rw [hfst2, getBooking_updateEvent,
      getBooking_updateBooking_self _ b.id
        (fun x => { x with paymentStatus := .completed, paymentId := some pid2 })
        (fun x => rfl),
      hgb1, Option.map_some']
  · rw [hfst2, hfst1]
    show (updateEvent (updateBooking (updateEvent _ _ _) _ _) _ _).events = _
    unfold updateEvent updateBooking
    exact map_overwrite_idem _ s.event.id (s.event.currentParticipants + 1)
  · intro s0 h0
    simp only [handlePaymentSuccess, h0]

/-- Witness for C5 (amended) at the scenario run: after the `pay_123`
confirmation, repeating with `pay_456` rewrites the payment id and leaves
the stored events exactly as after the first confirmation. -/
theorem c5_repeat_confirm_witness :
    (getBooking annConfirm2.1 "1001"
      = some { mkBooking "1001" "1001" evE1 "b1" with
                 paymentStatus := .completed, paymentId := some "pay_456" })
    ∧ annConfirm2.1.events = annConfirm1.1.events :=
  ⟨(c5_repeat_confirm annSubmit.1 annSubmit.2
      (mkUser "1001" annInput "r1") (mkBooking "1001" "1001" evE1 "b1")
      "pay_123" "pay_456" (by decide) (by decide)).1,
   (c5_repeat_confirm annSubmit.1 annSubmit.2
      (mkUser "1001" annInput "r1") (mkBooking "1001" "1001" evE1 "b1")
      "pay_123" "pay_456" (by decide) (by decide)).2.1⟩

/-- A single store transition performed by the booking operations: a form
submission (which, for a free event, finalizes immediately), a payment
confirmation, or a payment cancellation.  Modelled from the spec for the
confirmation's input: the Payment Confirmation Boundary's
`Success(paymentId)` outcome carries a payment identifier (spec §4.4; the
`PaymentGateway` component is absent from the snapshot), modelled as a
non-empty string. -/
inductive DBStep : DB → DB → Prop where
  | submit (db : DB) (s : FormState) (data : FormInput)
      (uid bid regDate bkDate : String) :
      DBStep db (onSubmit db s data uid bid regDate bkDate).1
  | confirm (db : DB) (s : FormState) (pid : String) (hpid : pid ≠ "") :
      DBStep db (handlePaymentSuccess db s pid).1
  | cancel (db : DB) (s : FormState) :
      DBStep db (onCancel db s).1

/-- A store reachable from another through any sequence of booking
operations. -/
def Reachable : DB → DB → Prop := Relation.ReflTransGen DBStep

/-- The spec §3 Booking invariant: `paymentStatus = completed` implies a
zero amount (free event) or a non-empty stored payment identifier. -/
def bookingInvariant (b : Booking) : Prop :=
  b.paymentStatus = .completed →
    b.amount = 0 ∨ ∃ p, b.paymentId = some p ∧ p ≠ ""

/-- The Booking invariant over every Booking record of the store. -/
def dbInvariant (db : DB) : Prop := ∀ b ∈ db.bookings, bookingInvariant b

theorem dbStep_invariant {db db' : DB} (hinv : dbInvariant db)
    (hstep : DBStep db db') : dbInvariant db' := by
  cases hstep with
  | submit s data uid bid regDate bkDate =>
      intro b hb
      rw [onSubmit_bookings] at hb
      rcases List.mem_append.mp hb with h | h
      · exact hinv b h
      · rw [List.mem_singleton.mp h]
        intro hc
        left
        unfold mkBooking at hc ⊢
        by_cases hp : s.event.price > 0
        · simp [hp] at hc
        · simpa using Nat.le_antisymm (Nat.not_lt.mp hp) (Nat.zero_le _)
  | confirm s pid hpid =>
      cases hbd : s.bookingData with
      | none =>
          intro b hb
          simp only [handlePaymentSuccess, hbd] at hb
          exact hinv b hb
      | some ub =>
          obtain ⟨u0, b0⟩ := ub
          intro b hb
          simp only [handlePaymentSuccess, hbd, completeBooking, updateEvent,
            updateBooking] at hb
          rcases List.mem_map.mp hb with ⟨x, hx, hxb⟩
          by_cases h : x.id = b0.id
          · rw [← hxb, if_pos (by simp [h])]
            intro _
            right
            exact ⟨pid, rfl, hpid⟩
          · rw [← hxb, if_neg (by simp [h])]
            exact hinv x hx
  | cancel s =>
      exact hinv

/-- Claim C2: the Booking payment invariant holds at every store
reachable through the booking operations (submission, payment
confirmation, finalization, cancellation) from any store satisfying it:
`paymentStatus = completed` implies `amount = 0` or a non-empty payment
identifier is stored on the Booking. -/
theorem c2_payment_invariant (db db' : DB)
    (hinv : dbInvariant db) (hreach : Reachable db db') : dbInvariant db' := by
  induction hreach with
  | refl => exact hinv
  | tail _ hstep ih => exact dbStep_invariant ih hstep

/-- Witness for C2: the spec §8 scenario trace — empty-ish store, Ann's
paid submission, then the `pay_123` confirmation — satisfies the
invariant at its end. -/
theorem c2_payment_invariant_witness : dbInvariant annConfirm1.1 :=
  c2_payment_invariant dbInit annConfirm1.1
    (fun b hb => absurd hb (by simp [dbInit]))
    (Relation.ReflTransGen.tail
      (Relation.ReflTransGen.single
        (DBStep.submit dbInit formS0 annInput "1001" "1001" "r1" "b1"))
      (DBStep.confirm annSubmit.1 annSubmit.2 "pay_123" (by decide)))

end YogaBooking
